import Mathlib

/-!
Verification development for the CForth interpreter
(src/include/CForth.h, src/src/CForth.cpp).

The C++ sources are shallowly embedded: machine `int` is modelled as `Int`
with an explicit 32-bit wrap applied exactly where C overflow can occur,
`long` as `Int` with a 64-bit wrap; reference-counted objects that are
mutated in place (`Variable`, `VariableRef`) live in explicit heaps inside a
`Machine` record and are addressed by index, so object identity and aliasing
are preserved; fallible or undefined operations return `Option`, and a
failed `assert` or out-of-bounds access is modelled by the `crash` outcome,
distinct from an error `State` carrying a message.
-/

namespace CForth

/-- Two's-complement wrap of a value into the 32-bit signed range; models
the (undefined) behaviour of C `int` overflow on the hardware the source
targets. -/
def wrap32 (x : Int) : Int := (x + 2 ^ 31) % 2 ^ 32 - 2 ^ 31

/-- Model of the C cast `int(double)`: truncation toward zero (out of range
the cast is UB in C; the model truncates whatever `Float.toUInt64` gives). -/
def doubleToInt (r : Float) : Int :=
  if r < 0 then -(Int.ofNat (-r).toUInt64.toNat) else Int.ofNat r.toUInt64.toNat

/-- Number class of CForth.h: tagged union of Boolean, Integer, Real.
The payload of `real` is a `Float`; none of the verified claims exercise a
real-number path. -/
inductive Number where
  | boolean (b : Bool)
  | integer (i : Int)
  | real (r : Float)

/-- Number::isBoolean. -/
def Number.isBoolean : Number → Bool
  | .boolean _ => true
  | _ => false

/-- Number::isInteger. -/
def Number.isInteger : Number → Bool
  | .integer _ => true
  | _ => false

/-- Number::isReal. -/
def Number.isReal : Number → Bool
  | .real _ => true
  | _ => false

/-- Number::integer(): `(! isReal() ? int(v_.i) : int(v_.r))`; the union
field `v_.i` holds 0/1 for a Boolean. -/
def Number.integerVal : Number → Int
  | .boolean b => if b then 1 else 0
  | .integer i => i
  | .real r => doubleToInt r

/-- Number::boolean(). -/
def Number.booleanVal : Number → Bool
  | .boolean b => b
  | .integer i => i != 0
  | .real r => r != 0

/-- Number::real(). -/
def Number.realVal : Number → Float
  | .boolean b => if b then 1.0 else 0.0
  | .integer i => Float.ofInt i
  | .real r => r

/-- Number::Mod (CForth.h): `assert(b != T(0)); int factor = int(a/b);
return a - (b*factor);`, dispatched through doOp (Integer path when neither
operand is Real, Real path otherwise).  A zero divisor fails the assert:
modelled as `none` (abort), not an error State.  `int(a/b)` on the Integer
path is C truncating division (`Int.tdiv`). -/
def Number.modOp (n1 n2 : Number) : Option Number :=
  if ¬ n1.isReal ∧ ¬ n2.isReal then
    let a := n1.integerVal
    let b := n2.integerVal
    if b = 0 then none
    else some (.integer (a - b * Int.tdiv a b))
  else
    let a := n1.realVal
    let b := n2.realVal
    if b == 0.0 then none
    else some (.real (a - b * Float.ofInt (doubleToInt (a / b))))

/-- Token (CForth.h): Boolean, Number, Builtin, VarBase (Variable or
VariableRef) tokens.  `Variable` and `VariableRef` objects are shared and
mutated in place in the source; they live in heaps inside `Machine` and the
token carries the heap index, preserving pointer identity.  Procedure
tokens are executable and never pushed on the parameter stack by any
operation modelled here, so they are omitted. -/
inductive Token where
  | boolean (b : Bool)
  | number (n : Number)
  | builtinTok (name : String)
  | variableTok (v : Nat)
  | varRefTok (r : Nat)

/-- Token::isVarBase. -/
def Token.isVarBase : Token → Bool
  | .variableTok _ => true
  | .varRefTok _ => true
  | _ => false

/-- Token::isNumber. -/
def Token.isNumber : Token → Bool
  | .number _ => true
  | _ => false

/-- Token::isImmutable (CForth.h line 402): the virtual returns `true` and
no subclass overrides it anywhere in the repository, so it is constantly
true for every token, including VariableRef tokens. -/
def Token.isImmutable (_ : Token) : Bool := true

/-- Variable object (CForth.h class Variable): named cell sequence with a
cursor `ind`, a constant flag and an optional DOES> body. -/
structure Variable where
  name : String
  values : List Token
  ind : Int
  constant : Bool
  execTokens : List Token

/-- VariableRef object (CForth.h class VariableRef): a (variable, offset)
pair.  `var` is an index into the Variable heap (references are only
created by Variable::indexVar and VariableRef::dup, so the target is always
a Variable). -/
structure RefCell where
  var : Nat
  ind : Int

/-- Variable::indValue: `values_[ind]` when in range, a null TokenP
otherwise (modelled `none`). -/
def Variable.indValue (var : Variable) (ind : Int) : Option Token :=
  if ind < 0 then none else var.values.get? ind.toNat

/-- Variable::setIndValue: writes cell `ind`, returning false (none) when
out of range. -/
def Variable.setIndValue (var : Variable) (ind : Int) (t : Token) : Option Variable :=
  if ind < 0 ∨ var.values.length ≤ ind then none
  else some { var with values := var.values.set ind.toNat t }

/-- Variable::getInteger: writes `i = 0`, then dereferences `value()`
(crash — outer `none` — when the cursor cell is absent, since the source
calls `isNumber()` on a null TokenP), returns the written flag/value pair
otherwise. -/
def Variable.getIntegerRes (var : Variable) : Option (Bool × Int) :=
  match var.indValue var.ind with
  | none => none
  | some t =>
    match t with
    | .number n => some (true, n.integerVal)
    | _ => some (false, 0)

/-- Process-wide interpreter state: the Variable and VariableRef heaps
(arenas standing for the shared_ptr graph), the two name→definition-stack
maps (`variables_`, `procedures_`; procedure bodies are irrelevant to the
claims, so only ids are kept), the parameter stack `tokens_` (last element
is the top, as in the source vector), and the standard-output text. -/
structure Machine where
  vars : List Variable
  refs : List RefCell
  varNames : List (String × List Nat)
  procNames : List (String × List Nat)
  stack : List Token
  out : String

/-- Machine with no definitions, empty stacks and no output. -/
def Machine.empty : Machine := ⟨[], [], [], [], [], ""⟩

/-- Outcome of executing an operation: a success State with the new
machine, an error State with the machine as mutated so far and the message
(`State::error`), or a crash (failed assert / out-of-bounds access /
undefined behaviour), which is not a State the driver can print. -/
inductive Res (α : Type) where
  | ok (a : α)
  | err (m : Machine) (msg : String)
  | crash

/-- Lookup in a name → stack-of-ids map (std::map::find). -/
def lookupName (l : List (String × List Nat)) (name : String) : Option (List Nat) :=
  (l.find? (fun p => p.1 == name)).map (fun p => p.2)

/-- Update (or create, as `operator[]` does) a map entry. -/
def mapSet (l : List (String × List Nat)) (name : String) (ids : List Nat) :
    List (String × List Nat) :=
  match l with
  | [] => [(name, ids)]
  | (k, v) :: rest =>
    if k == name then (k, ids) :: rest else (k, v) :: mapSet rest name ids

/-- lookupVariable (CForth.cpp): false when the name is absent or its
definition stack is empty; otherwise the most recent (back) Variable. -/
def Machine.lookupVariable (m : Machine) (name : String) : Option Variable :=
  match lookupName m.varNames name with
  | none => none
  | some ids =>
    match ids.getLast? with
    | none => none
    | some id => m.vars.get? id

/-- defineVariable (CForth.cpp): allocate a fresh Variable and push it on
the name's definition stack; returns the new machine and the heap id. -/
def Machine.defineVariable (m : Machine) (name : String) : Machine × Nat :=
  let var : Variable := ⟨name, [], 0, false, []⟩
  let id := m.vars.length
  (⟨m.vars ++ [var], m.refs,
    mapSet m.varNames name ((lookupName m.varNames name).getD [] ++ [id]),
    m.procNames, m.stack, m.out⟩, id)

/-- defineVariable(name, token): defineVariable then Variable::addValue. -/
def Machine.defineVariableTok (m : Machine) (name : String) (t : Token) : Machine × Nat :=
  let (m1, id) := m.defineVariable name
  match m1.vars.get? id with
  | none => (m1, id)
  | some var =>
    ({ m1 with vars := m1.vars.set id { var with values := var.values ++ [t] } }, id)

/-- defineVariable(name, i): integer initial value. -/
def Machine.defineVariableInt (m : Machine) (name : String) (i : Int) : Machine × Nat :=
  m.defineVariableTok name (.number (.integer i))

/-- forgetVariable (CForth.cpp lines 981-1001): false when the name is
absent or its stack is empty; otherwise pop the most recent id and return
true.  The Variable object itself stays alive (shared_ptr). -/
def Machine.forgetVariable (m : Machine) (name : String) : Machine × Bool :=
  match lookupName m.varNames name with
  | none => (m, false)
  | some ids =>
    if ids.isEmpty then (m, false)
    else ({ m with varNames := mapSet m.varNames name ids.dropLast }, true)

/-- lookupProcedure, reduced to the id (bodies are irrelevant here). -/
def Machine.lookupProcedureId (m : Machine) (name : String) : Option Nat :=
  match lookupName m.procNames name with
  | none => none
  | some ids => ids.getLast?

/-- forgetProcedure (CForth.cpp lines 1037-1057). -/
def Machine.forgetProcedure (m : Machine) (name : String) : Machine × Bool :=
  match lookupName m.procNames name with
  | none => (m, false)
  | some ids =>
    if ids.isEmpty then (m, false)
    else ({ m with procNames := mapSet m.procNames name ids.dropLast }, true)

/-- getBase (CForth.cpp lines 1098-1116), with `ignore_base_` false (it is
only raised around debug printing).  `getInteger` first overwrites the
reference with 0, so a BASE variable holding a non-number reads as base 0;
an integer value is clamped by `std::min(std::max(base, 2), 36)`.  The
`none` outcome is the null dereference inside getInteger. -/
def Machine.getBase (m : Machine) : Option Int :=
  match m.lookupVariable "BASE" with
  | none => some 10
  | some var =>
    match var.getIntegerRes with
    | none => none
    | some (ok, i) => if ok then some (min (max i 2) 36) else some i

/-- pushToken (CForth.cpp): append on top of the parameter stack. -/
def Machine.pushToken (m : Machine) (t : Token) : Machine :=
  { m with stack := m.stack ++ [t] }

/-- pushNumber: wrap in a fresh NumberToken and push. -/
def Machine.pushNumber (m : Machine) (n : Number) : Machine :=
  m.pushToken (.number n)

/-- popToken (CForth.cpp lines 642-661): "STACK EMPTY" on an empty stack. -/
def Machine.popToken (m : Machine) : Res (Token × Machine) :=
  match m.stack.getLast? with
  | none => .err m "STACK EMPTY"
  | some t => .ok (t, { m with stack := m.stack.dropLast })

/-- VarBase::isConstant seen through a token: Variables carry their flag,
VariableRef never overrides the default false. -/
def Machine.isConstantVB (m : Machine) (t : Token) : Bool :=
  match t with
  | .variableTok v => ((m.vars.get? v).map (fun var => var.constant)).getD false
  | _ => false

/-- Token::isVarRef (CForth.cpp lines 1306-1315): any VarBase token that is
not constant — this includes plain (non-constant) Variables. -/
def Machine.tokenIsVarRef (m : Machine) (t : Token) : Bool :=
  match t with
  | .variableTok v => !(((m.vars.get? v).map (fun var => var.constant)).getD false)
  | .varRefTok _ => true
  | _ => false

/-- VarBase::value() through a token: Variable::value() reads the cursor
cell, VariableRef::value() reads cell `ind_` of the target variable.
`none` is a null TokenP (out-of-range cell) or a dangling heap index
(unreachable in well-formed machines). -/
def Machine.varBaseValue (m : Machine) (t : Token) : Option Token :=
  match t with
  | .variableTok v => (m.vars.get? v).bind (fun var => var.indValue var.ind)
  | .varRefTok r =>
    (m.refs.get? r).bind (fun rc =>
      (m.vars.get? rc.var).bind (fun var => var.indValue rc.ind))
  | _ => none

/-- VarBase::setValue through a token; `none` models the false return
("invalid variable"). -/
def Machine.varBaseSetValue (m : Machine) (t v : Token) : Option Machine :=
  match t with
  | .variableTok vi =>
    (m.vars.get? vi).bind (fun var =>
      (var.setIndValue var.ind v).map (fun var2 => { m with vars := m.vars.set vi var2 }))
  | .varRefTok r =>
    (m.refs.get? r).bind (fun rc =>
      (m.vars.get? rc.var).bind (fun var =>
        (var.setIndValue rc.ind v).map (fun var2 =>
          { m with vars := m.vars.set rc.var var2 })))
  | _ => none

/-- tokenToNumber (CForth.cpp lines 726-742): a constant VarBase token is
replaced by its value (dereferencing a null value crashes); the result must
then be a NumberToken. -/
def Machine.tokenToNumber (m : Machine) (t : Token) : Res Number :=
  let sub : Res Token :=
    if t.isVarBase && m.isConstantVB t then
      match m.varBaseValue t with
      | none => .crash
      | some tv => .ok tv
    else .ok t
  match sub with
  | .crash => .crash
  | .err m2 msg => .err m2 msg
  | .ok t1 =>
    match t1 with
    | .number n => .ok n
    | _ => .err m "must be number"

/-- popNumber (CForth.cpp lines 744-754). -/
def Machine.popNumber (m : Machine) : Res (Number × Machine) :=
  match m.popToken with
  | .crash => .crash
  | .err m1 msg => .err m1 msg
  | .ok (t, m1) =>
    match m1.tokenToNumber t with
    | .crash => .crash
    | .err m2 msg => .err m2 msg
    | .ok n => .ok (n, m1)

/-- popNumbers (CForth.cpp lines 780-787): pops n2 (top) then n1. -/
def Machine.popNumbers (m : Machine) : Res ((Number × Number) × Machine) :=
  match m.popNumber with
  | .crash => .crash
  | .err m1 msg => .err m1 msg
  | .ok (n2, m1) =>
    match m1.popNumber with
    | .crash => .crash
    | .err m2 msg => .err m2 msg
    | .ok (n1, m2) => .ok ((n1, n2), m2)

/-- pushDupToken (CForth.cpp lines 569-575): duplicate only when the token
is mutable.  Since Token::isImmutable is never overridden, the duplication
branch is dead and the pushed token is always the original object. -/
def Machine.pushDupToken (m : Machine) (t : Token) : Res Machine :=
  if !t.isImmutable then
    match t with
    | .number n => .ok (m.pushToken (.number n))
    | .varRefTok r =>
      match m.refs.get? r with
      | none => .crash
      | some rc => .ok ({ m with refs := m.refs ++ [rc] }.pushToken (.varRefTok m.refs.length))
    | _ => .crash
  else .ok (m.pushToken t)

/-- Total list indexing with an Int index; `none` is an out-of-bounds (or
size_t-wrapped negative) vector access. -/
def getI (l : List Token) (j : Int) : Option Token :=
  if j < 0 then none else l.get? j.toNat

/-- Shift loop of RollBuiltin::exec: `for (n1 = nt - i; n1 < nt; ++n1)
tokens_[n1] = tokens_[n1 + 1]`.  Each iteration reads index n1+1; a read
past the end of the vector is undefined behaviour, modelled `none`.  The
structural counter counts the remaining iterations; `shiftLoop` below
starts it at exactly `l.length - n1` (`set` preserves the length, so the
counter never runs out before the loop condition fails). -/
def shiftLoopAux : Nat → List Token → Nat → Option (List Token)
  | c, l, n1 =>
    if n1 < l.length then
      match c with
      | 0 => none
      | c + 1 =>
        match l.get? (n1 + 1) with
        | none => none
        | some v => shiftLoopAux c (l.set n1 v) (n1 + 1)
    else some l

/-- Entry point of the shift loop of RollBuiltin::exec. -/
def shiftLoop (l : List Token) (n1 : Nat) : Option (List Token) :=
  shiftLoopAux (l.length - n1) l n1

/-- DecimalBuiltin::exec (CForth.cpp lines 2690-2700): look BASE up and
only when it is absent define it with value 10; an existing BASE variable
is left untouched. -/
def DecimalBuiltin.exec (m : Machine) : Machine :=
  match m.lookupVariable "BASE" with
  | some _ => m
  | none => (m.defineVariableInt "BASE" 10).1

/-- QDupBuiltin::exec (CForth.cpp lines 1473-1485): pop a number and push
it back once when its integer value is nonzero. -/
def QDupBuiltin.exec (m : Machine) : Res Machine :=
  match m.popNumber with
  | .crash => .crash
  | .err m1 msg => .err m1 msg
  | .ok (n, m1) => if n.integerVal ≠ 0 then .ok (m1.pushNumber n) else .ok m1

/-- ForgetBuiltin::exec (CForth.cpp lines 2944-2968), after readWord has
produced `name`: when the name resolves to a variable (resp. procedure)
the pop is performed and, if it succeeded, the error "Unknown variable"
(resp. "Unknown procedure") is returned; an unbound name gives "Unknown
word". -/
def ForgetBuiltin.exec (m : Machine) (name : String) : Res Machine :=
  if (m.lookupVariable name).isSome then
    let (m1, b) := m.forgetVariable name
    if b then .err m1 "Unknown variable" else .ok m1
  else if (m.lookupProcedureId name).isSome then
    let (m1, b) := m.forgetProcedure name
    if b then .err m1 "Unknown procedure" else .ok m1
  else .err m "Unknown word"

/-- ModBuiltin::exec (CForth.cpp lines 1716-1727): pop two numbers and push
Number::mod; a failed assert in Number::mod aborts. -/
def ModBuiltin.exec (m : Machine) : Res Machine :=
  match m.popNumbers with
  | .crash => .crash
  | .err m1 msg => .err m1 msg
  | .ok ((n1, n2), m1) =>
    match Number.modOp n1 n2 with
    | none => .crash
    | some r => .ok (m1.pushNumber r)

/-- RollBuiltin::exec (CForth.cpp lines 1437-1471): pop the count, check
`i > nt`, read `tokens_[nt - i]`, run the shift loop, pop the (now
duplicated) top and push the saved token. -/
def RollBuiltin.exec (m : Machine) : Res Machine :=
  match m.popNumber with
  | .crash => .crash
  | .err m1 msg => .err m1 msg
  | .ok (n, m1) =>
    if n.isInteger then
      let i := n.integerVal
      let nt := m1.stack.length
      if i > (nt : Int) then .err m1 "STACK UNDERFLOW"
      else
        match getI m1.stack ((nt : Int) - i) with
        | none => .crash
        | some token =>
          match shiftLoop m1.stack ((nt : Int) - i).toNat with
          | none => .crash
          | some st =>
            .ok { m1 with stack := st.dropLast ++ [token] }
    else .err m1 "Must be integer"

/-- DupBuiltin::exec (CForth.cpp lines 1320-1336): peek the top token and
pushDupToken it. -/
def DupBuiltin.exec (m : Machine) : Res Machine :=
  match m.stack.getLast? with
  | none => .err m "STACK EMPTY"
  | some t => m.pushDupToken t

/-- OverBuiltin::exec (CForth.cpp lines 1373-1391): pushDupToken the token
one below the top. -/
def OverBuiltin.exec (m : Machine) : Res Machine :=
  let nt := m.stack.length
  if nt < 2 then .err m "STACK UNDERFLOW"
  else
    match getI m.stack ((nt : Int) - 2) with
    | none => .crash
    | some t => m.pushDupToken t

/-- VarBase::inc (CForth.h lines 753-757) applied to the VariableRef object
at heap index r: `setInd(ind() + n)`, an in-place mutation of the shared
object. -/
def Machine.refInc (m : Machine) (r : Nat) (n : Int) : Machine :=
  match m.refs.get? r with
  | none => m
  | some rc => { m with refs := m.refs.set r { rc with ind := rc.ind + n } }

/-- Offset of the VariableRef object a stack token denotes. -/
def Machine.refOffsetOf (m : Machine) (t : Token) : Option Int :=
  match t with
  | .varRefTok r => (m.refs.get? r).map (fun rc => rc.ind)
  | _ => none

/-- StoreBuiltin::exec (CForth.cpp lines 1936-1966): token1 is the top,
token2 below it; both are popped; token1 must satisfy Token::isVarRef (a
non-constant VarBase — plain Variables qualify); setValue writes through
the shared object. -/
def StoreBuiltin.exec (m : Machine) : Res Machine :=
  let nt := m.stack.length
  if nt < 2 then .err m "STACK UNDERFLOW"
  else
    match getI m.stack ((nt : Int) - 1), getI m.stack ((nt : Int) - 2) with
    | some token1, some token2 =>
      let m1 := { m with stack := m.stack.dropLast.dropLast }
      if m1.tokenIsVarRef token1 then
        match m1.varBaseSetValue token1 token2 with
        | none => .err m1 "invalid variable"
        | some m2 => .ok m2
      else .err m1 "Not a variable"
    | _, _ => .crash

/-- base_chars (CForth.cpp line 10). -/
def baseChars : List Char := "0123456789ABCDEFGHIJKLMNOPQRSTUVWXYZ".toList

/-- Digit loop of toBaseString: while `integer >= base` prepend
base_chars[integer % base] and divide; finally prepend
base_chars[integer].  `acc` is the string built so far (the source
prepends).  The `b ≤ 1` guard is dead code: toBaseString has already
checked the base. -/
def digitsLoopAux (b : Nat) : Nat → Nat → List Char → List Char
  | 0, _, acc => acc
  | fuel + 1, m, acc =>
    if b ≤ 1 then acc
    else if m < b then baseChars.getD m ' ' :: acc
    else digitsLoopAux b fuel (m / b) (baseChars.getD (m % b) ' ' :: acc)

/-- Entry point of the digit loop; the structural counter `m + 1` bounds
the iteration count (the value shrinks by a factor of at least 2 each
round), so the fuel-out case of the auxiliary is never reached. -/
def digitsLoopAcc (b : Nat) (m : Nat) (acc : List Char) : List Char :=
  digitsLoopAux b (m + 1) m acc

/-- toBaseString (CForth.cpp lines 1175-1199): empty string for an invalid
base; a negative argument is negated (C `int` negation, which wraps at
INT_MIN) and prefixed with a minus sign.  When the negated value is still
negative (only INT_MIN) the final `base_chars[integer]` access is out of
bounds: modelled `none`. -/
def toBaseString (base : Int) (n : Int) : Option (List Char) :=
  if base < 2 ∨ base > 36 then some []
  else
    let sm : List Char × Int := if n < 0 then (['-'], wrap32 (-n)) else ([], n)
    if sm.2 < 0 then none
    else some (sm.1 ++ digitsLoopAcc base.toNat sm.2.toNat [])

/-- Model of C++ ostream double output, external to the repository. -/
def realPrintModel (r : Float) : String := toString r

/-- Number::print (CForth.h lines 297-302). -/
def Number.printStr : Number → String
  | .boolean b => if b then "TRUE" else "FALSE"
  | .integer i => toString i
  | .real r => realPrintModel r

/-- Token printing (the virtual print methods): NumberToken::print renders
integers through toBaseString under the current base when it is not 10;
Variable::print shows a constant's value, otherwise `$name`;
VariableRef::print appends `[ind]` to its variable.  Printing follows the
shared heap, which can recurse (a constant variable containing itself),
hence the fuel, standing for the C++ call stack. -/
def printToken (m : Machine) : Nat → Token → Option String
  | 0, _ => none
  | _ + 1, .boolean b => some (if b then "TRUE" else "FALSE")
  | _ + 1, .number n =>
    match m.getBase with
    | none => none
    | some base =>
      if base ≠ 10 ∧ n.isInteger then
        (toBaseString base n.integerVal).map (fun cs => String.mk cs)
      else some n.printStr
  | _ + 1, .builtinTok name => some name
  | fuel + 1, .variableTok v =>
    match m.vars.get? v with
    | none => none
    | some var =>
      if var.constant then
        match var.indValue var.ind with
        | none => none
        | some tv => printToken m fuel tv
      else some ("$" ++ var.name)
  | fuel + 1, .varRefTok r =>
    match m.refs.get? r with
    | none => none
    | some rc =>
      (printToken m fuel (.variableTok rc.var)).map
        (fun s => s ++ "[" ++ toString rc.ind ++ "]")

/-- PrintBuiltin::exec (CForth.cpp lines 2702-2726): a failed pop prints
"0" and a newline and returns the pop's error State ("STACK EMPTY");
otherwise a constant variable is replaced by its value and the token is
printed followed by a space. -/
def PrintBuiltin.exec (fuel : Nat) (m : Machine) : Res Machine :=
  match m.popToken with
  | .crash => .crash
  | .err m1 msg => .err { m1 with out := m1.out ++ "0\n" } msg
  | .ok (t, m1) =>
    let sub : Res Token :=
      match t with
      | .variableTok v =>
        match m1.vars.get? v with
        | none => .crash
        | some var =>
          if var.constant then
            match var.indValue var.ind with
            | none => .crash
            | some tv => .ok tv
          else .ok t
      | _ => .ok t
    match sub with
    | .crash => .crash
    | .err m2 msg => .err m2 msg
    | .ok t1 =>
      match printToken m1 fuel t1 with
      | none => .crash
      | some s => .ok { m1 with out := m1.out ++ s ++ " " }

end CForth

namespace CForth.DoLoop

/-!
Model of DoBuiltin::exec / exec1 (CForth.cpp lines 2062-2127) and
IBuiltin::exec (lines 2178-2189), specialised to the situation C8
describes: both loop bounds are Integer tokens, the compiled body is plain
(`incToken = false`, no LEAVE, and it does not touch the return stack).
Stacks are therefore stacks of integers (the last element is the top, as
in the source vectors); the in-place `startToken->inc(1)` mutation of the
token shared with the return stack is rendered by threading the current
index value `cur` and presenting the return stack seen by the body as
`rs ++ [cur, limit]`.  The body is an arbitrary function from the visible
return stack and parameter stack to an optional new parameter stack
(`none` is a failing body); since it only returns a parameter stack it
cannot modify the return stack, which is the claim's hypothesis.
-/

end CForth.DoLoop

namespace CForth

/-! Concrete machines used by the theorems below. -/

/-- Machine whose BASE variable holds 16 — the state reached by
`16 BASE !` in a fresh session. -/
def mBase16 : Machine := (Machine.empty.defineVariableInt "BASE" 16).1

/-- The BASE variable object of `mBase16`. -/
def baseVar16 : Variable := ⟨"BASE", [.number (.integer 16)], 0, false, []⟩

/-- Machine whose BASE variable holds 1 (below the valid range). -/
def mBase1 : Machine := (Machine.empty.defineVariableInt "BASE" 1).1

/-- Machine with a given parameter stack and nothing else. -/
def mkStack (l : List Token) : Machine := { Machine.empty with stack := l }

/-- Machine with a single user variable X (as after `VARIABLE X`, up to
X's initial cell, which FORGET ignores). -/
def mX : Machine := (Machine.empty.defineVariable "X").1

/-- The machine left behind by FORGET X: the binding of X is popped. -/
def mXforgot : Machine := { mX with varNames := [("X", [])] }

/-- Machine with a two-cell variable X, one VariableRef object aiming at
cell 0 of X, and that reference on the parameter stack. -/
def mRef : Machine :=
  { Machine.empty with
    vars := [⟨"X", [.number (.integer 7), .number (.integer 8)], 0, false, []⟩],
    varNames := [("X", [0])],
    refs := [⟨0, 0⟩],
    stack := [.varRefTok 0] }

/-- The machine after DUP on `mRef`: the same VariableRef object (heap
index 0) occupies both stack slots. -/
def mRefDup : Machine := { mRef with stack := [.varRefTok 0, .varRefTok 0] }

/-- The machine after a further OVER on `mRefDup`. -/
def mRefOver : Machine :=
  { mRef with stack := [.varRefTok 0, .varRefTok 0, .varRefTok 0] }

end CForth

namespace CForth.DoLoop

end CForth.DoLoop

namespace CForth

/-- C1. The spec asserts that DECIMAL sets BASE to 10 (defining it when
absent), so that `16 BASE !` followed by DECIMAL reads BASE as 10.  The
code (DecimalBuiltin::exec) only defines BASE when it is absent and leaves
an existing BASE variable untouched: starting from the state after
`16 BASE !`, DECIMAL changes nothing and BASE still reads 16, not 10. -/
theorem c1_decimal_leaves_existing_base :
    DecimalBuiltin.exec mBase16 = mBase16 ∧
    mBase16.getBase = some 16 ∧
    (DecimalBuiltin.exec mBase16).getBase = some 16 ∧
    (DecimalBuiltin.exec mBase16).getBase ≠ some 10 :=
  ⟨rfl, rfl, rfl, by decide⟩

/-- C2. The spec describes ?DUP as "dup unless top is zero".  The code
(QDupBuiltin::exec) pops the number and pushes it back only once when it
is nonzero: a nonzero top is left un-duplicated (depth unchanged) and a
zero top is dropped (depth decreases), the opposite of the claim in both
branches. -/
theorem c2_qdup_no_dup_and_drops_zero :
    QDupBuiltin.exec (mkStack [.number (.integer 5)]) =
      .ok (mkStack [.number (.integer 5)]) ∧
    QDupBuiltin.exec (mkStack [.number (.integer 0)]) = .ok (mkStack []) :=
  ⟨rfl, rfl⟩

/-- C3. The claim: FORGET errors exactly when the name is unknown and
silently succeeds on a bound name.  The code (ForgetBuiltin::exec) inverts
the condition: with variable X bound, FORGET X pops the binding (the
lookup afterwards fails) and then reports the error "Unknown variable". -/
theorem c3_forget_errors_after_successful_pop :
    ForgetBuiltin.exec mX "X" = .err mXforgot "Unknown variable" ∧
    mXforgot.lookupVariable "X" = none ∧
    mX.lookupVariable "X" ≠ none :=
  ⟨rfl, rfl, fun h => Option.noConfusion h⟩

/-- C4 counterexample. The claim says a BASE value outside [2,36] reads as
10; with BASE holding 1 the code clamps and reads 2, not 10. -/
theorem c4_base_one_reads_as_two :
    mBase1.getBase = some 2 ∧ mBase1.getBase ≠ some 10 :=
  ⟨rfl, by decide⟩

/-- C4 as amended: reading BASE through getBase yields
`min (max v 2) 36`, always inside [2,36]; an out-of-range stored value is
clamped to the nearest bound (2 below, 36 above), not replaced by 10. -/
theorem c4_base_read_is_clamped (m : Machine) (var : Variable) (v : Int)
    (h1 : m.lookupVariable "BASE" = some var)
    (h2 : var.indValue var.ind = some (.number (.integer v))) :
    m.getBase = some (min (max v 2) 36) ∧
    2 ≤ min (max v 2) 36 ∧ min (max v 2) 36 ≤ 36 := by
  refine ⟨?_, le_min (le_max_right v 2) (by norm_num), min_le_right _ _⟩
  have hres : var.getIntegerRes = some (true, v) := by
    unfold Variable.getIntegerRes
    rw [h2]
    rfl
  simp [Machine.getBase, h1, hres]

/-- C4 witness: the clamped read applied to the machine whose BASE is 16. -/
theorem c4_base_read_is_clamped_witness :
    mBase16.lookupVariable "BASE" = some baseVar16 ∧
    baseVar16.indValue baseVar16.ind = some (.number (.integer 16)) ∧
    (mBase16.getBase = some (min (max 16 2) 36) ∧
     2 ≤ min (max (16 : Int) 2) 36 ∧ min (max (16 : Int) 2) 36 ≤ 36) :=
  ⟨rfl, rfl, c4_base_read_is_clamped mBase16 baseVar16 16 rfl rfl⟩

/-- C6 counterexample. The claim says Integer MOD with a zero divisor
reports an error State; the code reaches `assert(b != T(0))` inside
Number::Mod, which aborts (crash), and no error State is produced. -/
theorem c6_mod_zero_crashes_not_error :
    ModBuiltin.exec (mkStack [.number (.integer 5), .number (.integer 0)]) = .crash ∧
    ∀ (m : Machine) (msg : String),
      ModBuiltin.exec (mkStack [.number (.integer 5), .number (.integer 0)]) ≠
        .err m msg := by
  refine ⟨rfl, ?_⟩
  intro m msg h
  have e : ModBuiltin.exec (mkStack [.number (.integer 5), .number (.integer 0)]) =
      Res.crash := rfl
  rw [e] at h
  exact Res.noConfusion h

/-- C6 as amended: whenever MOD executes with two Integer operands and the
divisor (top of stack) is zero, the failed assert in Number::Mod aborts
the process (crash) for every machine and every stack below the operands;
no value is produced and no error State is reported. -/
theorem c6_mod_zero_divisor_asserts (a : Int) (st : List Token)
    (vars : List Variable) (refs : List RefCell)
    (vn pn : List (String × List Nat)) (out : String) :
    ModBuiltin.exec
      ⟨vars, refs, vn, pn, st ++ [.number (.integer a), .number (.integer 0)], out⟩ =
      .crash := by
  have hsplit :
      st ++ [Token.number (.integer a), Token.number (.integer 0)] =
        (st ++ [Token.number (.integer a)]) ++ [Token.number (.integer 0)] := by
    simp
  unfold ModBuiltin.exec Machine.popNumbers Machine.popNumber Machine.popToken
  simp only [hsplit, List.getLast?_concat, List.dropLast_concat]
  simp [Machine.tokenToNumber, Token.isVarBase, Machine.isConstantVB,
    Number.modOp, Number.isReal, Number.integerVal]

/-- C7. The spec asserts DUP/OVER push a new, distinct VariableRef object
aliasing the same variable, so shifting one reference's offset in place
leaves the other's unchanged.  Since Token::isImmutable is never
overridden, pushDupToken never duplicates: DUP and OVER push the very same
VariableRef object (same heap index, no new heap cell), and an in-place
offset shift (VarBase::inc) through either stack slot is seen through the
other slot as well — after shifting by 1, the "other" copy also reads
offset 1 instead of its original 0. -/
theorem c7_dup_over_push_same_ref_object :
    DupBuiltin.exec mRef = .ok mRefDup ∧
    mRefDup.stack = [.varRefTok 0, .varRefTok 0] ∧
    mRefDup.refs = [⟨0, 0⟩] ∧
    OverBuiltin.exec mRefDup = .ok mRefOver ∧
    mRefOver.refs = [⟨0, 0⟩] ∧
    (mRefDup.refInc 0 1).refOffsetOf (.varRefTok 0) = some 1 ∧
    mRef.refOffsetOf (.varRefTok 0) = some 0 :=
  ⟨rfl, rfl, rfl, rfl, rfl, rfl, rfl⟩

/-- C9. The claim (implicit safety property of RollBuiltin::exec) is that
for 1 ≤ n ≤ depth every slot touched while rotating lies inside the stack.
The shift loop's final iteration executes `tokens_[nt - 1] = tokens_[nt]`,
reading one slot past the top: with stack [10, 20] the executions of
`1 ROLL` and `2 ROLL` both perform an out-of-bounds read (crash in the
total model). -/
theorem c9_roll_reads_past_top :
    RollBuiltin.exec
      (mkStack [.number (.integer 10), .number (.integer 20), .number (.integer 1)]) =
      .crash ∧
    RollBuiltin.exec
      (mkStack [.number (.integer 10), .number (.integer 20), .number (.integer 2)]) =
      .crash :=
  ⟨rfl, rfl⟩

/-- C10. Executing `.` on an empty parameter stack writes "0" and a
newline to standard output, returns the "STACK EMPTY" error State raised
by popToken, and leaves the parameter stack empty — for every machine
whose stack is empty and every print fuel. -/
theorem c10_print_empty_stack (fuel : Nat) (vars : List Variable)
    (refs : List RefCell) (vn pn : List (String × List Nat)) (out : String) :
    PrintBuiltin.exec fuel ⟨vars, refs, vn, pn, [], out⟩ =
      .err ⟨vars, refs, vn, pn, [], out ++ "0\n"⟩ "STACK EMPTY" := rfl

end CForth

namespace CForth.DoLoop

end CForth.DoLoop

namespace CForth

end CForth

namespace CForth

end CForth

namespace CForth

end CForth

namespace CForth

end CForth

namespace CForth

end CForth

namespace CForth

end CForth

namespace CForth

end CForth
